import Mathlib

/-!
Verification of the vulnerability-matching behaviour of the cargo-audit tool.

The CLI driver (`src/main.rs`) is embedded directly.  The matching engine it
calls (`Lockfile::vulnerabilities`, advisory and version-range semantics) lives
in the external `rustsec` crate, whose code is not part of this repository:
those components are modelled from the specification, as noted on each
definition.
-/

namespace CargoAudit

/-- Pre-release identifier of a semantic version.  Modelled from the spec:
numeric identifiers compare numerically, the others lexically. -/
inductive PreId where
  | num (n : Nat)
  | str (s : String)
deriving DecidableEq

/-- Ordering of a single pre-release identifier, modelled from the spec:
numeric identifiers compare numerically, others lexically, and a numeric
identifier orders before an alphanumeric one. -/
def PreId.lt : PreId → PreId → Bool
  | .num a, .num b => decide (a < b)
  | .num _, .str _ => true
  | .str _, .num _ => false
  | .str a, .str b => decide (a < b)

/-- Semantic version.  Modelled from the spec: ordered triple
(major, minor, patch) plus optional pre-release identifiers; build metadata
plays no role in comparison and is dropped at parse time. -/
structure Version where
  major : Nat
  minor : Nat
  patch : Nat
  pre : List PreId
deriving DecidableEq

/-- Lexicographic ordering of two non-empty pre-release identifier sequences:
element-wise, with the shorter sequence ordering first when it is a prefix
of the longer one.  Modelled from the spec. -/
def Version.preIdListLt : List PreId → List PreId → Bool
  | [], [] => false
  | [], _ :: _ => true
  | _ :: _, [] => false
  | a :: as, b :: bs => if a = b then Version.preIdListLt as bs else PreId.lt a b

/-- Ordering of the pre-release components of two versions sharing a numeric
triple.  Modelled from the spec: a pre-release version is strictly less than
its corresponding normal version, and two pre-release sequences compare
lexicographically. -/
def Version.preLt : List PreId → List PreId → Bool
  | [], _ => false
  | _ :: _, [] => true
  | a :: as, b :: bs => if a = b then Version.preIdListLt as bs else PreId.lt a b

/-- Strict semantic-versioning precedence.  Modelled from the spec (§3, §4.1). -/
def Version.lt (v w : Version) : Bool :=
  if v.major ≠ w.major then decide (v.major < w.major)
  else if v.minor ≠ w.minor then decide (v.minor < w.minor)
  else if v.patch ≠ w.patch then decide (v.patch < w.patch)
  else Version.preLt v.pre w.pre

/-- Non-strict semantic-versioning precedence.  Modelled from the spec. -/
def Version.le (v w : Version) : Bool :=
  Version.lt v w || decide (v = w)

/-- Comparator operators of a version-range term.  Modelled from the spec
(§3): operator ∈ \x7b =, <, <=, >, >=, ^, ~ \x7d. -/
inductive Op where
  | eq
  | lt
  | le
  | gt
  | ge
  | caret
  | tilde
deriving DecidableEq

/-- One comparator term: an operator paired with a version.  Modelled from
the spec. -/
structure Comparator where
  op : Op
  ver : Version
deriving DecidableEq

/-- Exclusive upper bound induced by a caret comparator.  Modelled from the
spec (§4.1): allow patch/minor increases but not a change to the leftmost
non-zero component. -/
def Version.caretUpper (u : Version) : Version :=
  if u.major > 0 then ⟨u.major + 1, 0, 0, []⟩
  else if u.minor > 0 then ⟨0, u.minor + 1, 0, []⟩
  else ⟨0, 0, u.patch + 1, []⟩

/-- Exclusive upper bound induced by a tilde comparator.  Modelled from the
spec (§4.1): allow patch increases only. -/
def Version.tildeUpper (u : Version) : Version :=
  ⟨u.major, u.minor + 1, 0, []⟩

/-- Pre-release gate of comparator matching.  Modelled from the spec (§8):
a pre-release version never matches a plain bound; it can only match a
comparator that itself carries a pre-release at the same numeric triple. -/
def Comparator.preOk (c : Comparator) (v : Version) : Bool :=
  v.pre.isEmpty ||
    (!c.ver.pre.isEmpty && decide (v.major = c.ver.major) &&
      decide (v.minor = c.ver.minor) && decide (v.patch = c.ver.patch))

/-- Ordering condition of one comparator term, before the pre-release gate.
Modelled from the spec (§3, §4.1). -/
def Comparator.primMatches (c : Comparator) (v : Version) : Bool :=
  match c.op with
  | .eq => decide (v = c.ver)
  | .lt => Version.lt v c.ver
  | .le => Version.le v c.ver
  | .gt => Version.lt c.ver v
  | .ge => Version.le c.ver v
  | .caret => Version.le c.ver v && Version.lt v (Version.caretUpper c.ver)
  | .tilde => Version.le c.ver v && Version.lt v (Version.tildeUpper c.ver)

/-- Whether a comparator term accepts a version.  Modelled from the spec. -/
def Comparator.matches (c : Comparator) (v : Version) : Bool :=
  c.preOk v && c.primMatches v

/-- One term-group of a version range: a conjunction of comparator terms.
Modelled from the spec (§3). -/
structure VersionReq where
  comparators : List Comparator
deriving DecidableEq

/-- A term-group matches a version when every term holds; an empty term-group
matches nothing.  Modelled from the spec (§3 invariant). -/
def VersionReq.matches (r : VersionReq) (v : Version) : Bool :=
  !r.comparators.isEmpty && r.comparators.all (fun c => c.matches v)

/-- A range set (disjunction of term-groups) matches a version when some
term-group does; an empty range set matches nothing.  Modelled from the
spec (§3 invariant). -/
def rangeSetMatches (s : List VersionReq) (v : Version) : Bool :=
  s.any (fun r => r.matches v)

/-- A single vulnerability record.  Modelled from the spec (§3): identifier,
affected crate name, metadata, patched ranges, unaffected ranges. -/
structure Advisory where
  id : String
  crate_name : String
  title : String
  descr : Option String
  url : Option String
  date : Option String
  patched_versions : List VersionReq
  unaffected_versions : List VersionReq
deriving DecidableEq

/-- Vulnerability decision of one advisory.  Modelled from the spec (§4.2):
a version is vulnerable iff it matches neither the patched nor the
unaffected ranges. -/
def Advisory.is_version_vulnerable (a : Advisory) (v : Version) : Bool :=
  !rangeSetMatches a.patched_versions v && !rangeSetMatches a.unaffected_versions v

/-- One resolved dependency of the lockfile: an immutable (name, version)
pair.  Modelled from the spec (§3). -/
structure Package where
  name : String
  version : Version
deriving DecidableEq

/-- The ordered sequence of resolved packages under audit.  Modelled from
the spec (§3). -/
structure Lockfile where
  packages : List Package
deriving DecidableEq

/-- Immutable collection of advisories, insertion order preserved.  Modelled
from the spec (§3, §4.3). -/
structure AdvisoryDatabase where
  advisories : List Advisory
deriving DecidableEq

/-- Lookup of the advisories applying to one crate name, in insertion order.
Modelled from the spec (§4.3): exact, case-sensitive name match. -/
def AdvisoryDatabase.find_by_crate (db : AdvisoryDatabase) (name : String) : List Advisory :=
  db.advisories.filter (fun a => a.crate_name = name)

/-- One report line: a (package, advisory) pair.  Modelled from the spec (§3). -/
structure VulnerabilityMatch where
  package : Package
  advisory : Advisory
deriving DecidableEq

/-- All matches one package contributes to the report, in advisory insertion
order.  Modelled from the spec (§4.4). -/
def packageMatches (db : AdvisoryDatabase) (p : Package) : List VulnerabilityMatch :=
  ((db.find_by_crate p.name).filter (fun a => a.is_version_vulnerable p.version)).map
    (fun a => ⟨p, a⟩)

/-- The matching engine.  Modelled from the spec (§4.4): iterate packages in
lockfile order; for each, look up advisories by crate name and keep those
whose `is_version_vulnerable` test holds, in (package, advisory) order. -/
def scan (lf : Lockfile) (db : AdvisoryDatabase) : List VulnerabilityMatch :=
  lf.packages.flatMap (packageMatches db)

/-- Restatement of the report contents in the words of the specification:
all (package, advisory) pairs in lockfile-then-insertion order, keeping
exactly those whose crate names agree exactly and whose version is
vulnerable.  This definition exists only to be compared with `scan`. -/
def reportSpec (lf : Lockfile) (db : AdvisoryDatabase) : List VulnerabilityMatch :=
  (lf.packages.flatMap (fun p => db.advisories.map (fun a => ⟨p, a⟩))).filter
    (fun m => m.advisory.crate_name = m.package.name &&
      m.advisory.is_version_vulnerable m.package.version)

/-- State of one scan run: the two inputs together with the report built so
far.  The loop of the matching engine is made explicit so that absence of
input mutation is a provable statement.  Modelled from the spec (§4.4, §5). -/
structure ScanState where
  lockfile : Lockfile
  db : AdvisoryDatabase
  report : List VulnerabilityMatch
deriving DecidableEq

/-- The scan loop run to completion: iterate the packages in lockfile order,
appending each package's matches to the report, touching neither input.
Modelled from the spec (§4.4). -/
def scanRun (s : ScanState) : ScanState :=
  { s with
    report := s.lockfile.packages.foldl (fun acc p => acc ++ packageMatches s.db p) [] }

/-- Errors of the construction phase.  Modelled from the spec (§7). -/
inductive AuditError where
  | versionParseError
  | advisoryBuildError
  | duplicateIdError
  | lockfileParseError
deriving DecidableEq

/-- Database construction.  Modelled from the spec (§4.3): fails with a
duplicate-id error if two advisories share an `id`, otherwise keeps the
advisories in insertion order. -/
def from_advisories (l : List Advisory) : Except AuditError AdvisoryDatabase :=
  if (l.map (fun a => a.id)).Nodup then .ok ⟨l⟩ else .error .duplicateIdError

/-- Decimal digits of a version component accumulated into a number. -/
def digitsToNat (l : List Char) : Nat :=
  l.foldl (fun acc c => acc * 10 + (c.toNat - 48)) 0

/-- Longest leading run of decimal digits, together with the rest. -/
def takeDigits : List Char → List Char × List Char
  | [] => ([], [])
  | c :: cs =>
    if c.isDigit then
      let (d, r) := takeDigits cs
      (c :: d, r)
    else ([], c :: cs)

/-- One numeric version component.  Modelled from the spec (§3): fails on a
missing or non-numeric major/minor/patch component. -/
def parseNatComponent (cs : List Char) : Option (Nat × List Char) :=
  let (d, r) := takeDigits cs
  if d.isEmpty then none else some (digitsToNat d, r)

/-- Classification of one pre-release identifier: all-digits identifiers are
numeric, the others alphanumeric.  Modelled from the spec (§3). -/
def mkPreId (l : List Char) : PreId :=
  if l.all Char.isDigit then .num (digitsToNat l) else .str (String.mk l)

/-- Dot-separated pre-release identifiers; an empty identifier is a parse
error.  Modelled from the spec (§3).  The first argument accumulates the
characters of the current identifier in reverse. -/
def parsePreAux (cur : List Char) : List Char → Option (List PreId)
  | [] => if cur.isEmpty then none else some [mkPreId cur.reverse]
  | c :: cs =>
    if c = '.' then
      if cur.isEmpty then none
      else (parsePreAux [] cs).map (fun l => mkPreId cur.reverse :: l)
    else parsePreAux (c :: cur) cs

/-- Version parsing.  Modelled from the spec (§3, §4.1): fails on malformed
input (missing components, non-numeric major/minor/patch, empty pre-release
identifiers); build metadata after `+` is ignored for comparison. -/
def Version.parse (s : String) : Option Version :=
  let cs := s.data.takeWhile (fun c => c ≠ '+')
  match parseNatComponent cs with
  | none => none
  | some (maj, r1) =>
    match r1 with
    | '.' :: r1a =>
      match parseNatComponent r1a with
      | none => none
      | some (mnr, r2) =>
        match r2 with
        | '.' :: r2a =>
          match parseNatComponent r2a with
          | none => none
          | some (pat, r3) =>
            match r3 with
            | [] => some ⟨maj, mnr, pat, []⟩
            | '-' :: r3a => (parsePreAux [] r3a).map (fun pre => ⟨maj, mnr, pat, pre⟩)
            | _ => none
        | _ => none
    | _ => none

/-- Raw advisory record as supplied by the advisory source collaborator:
version-range terms still carry unparsed version strings.  Modelled from the
spec (§6). -/
structure RawAdvisory where
  id : String
  crate_name : String
  title : String
  descr : Option String
  url : Option String
  date : Option String
  patched_versions : List (List (Op × String))
  unaffected_versions : List (List (Op × String))
deriving DecidableEq

/-- Construction of one comparator from a raw term; fails when the version
string is malformed.  Modelled from the spec (§4.1): a malformed range term
is a construction-time error, not a silent no-match. -/
def mkComparator (t : Op × String) : Option Comparator :=
  (Version.parse t.2).map (fun v => ⟨t.1, v⟩)

/-- Construction of one term-group from raw terms.  Modelled from the spec
(§4.1). -/
def mkVersionReq (g : List (Op × String)) : Option VersionReq :=
  (g.mapM mkComparator).map VersionReq.mk

/-- Advisory construction.  Modelled from the spec (§4.2): fails if `id` or
`crate_name` is empty, or if any version-range term fails to parse. -/
def mkAdvisory (r : RawAdvisory) : Except AuditError Advisory :=
  if r.id = "" then .error .advisoryBuildError
  else if r.crate_name = "" then .error .advisoryBuildError
  else
    match r.patched_versions.mapM mkVersionReq, r.unaffected_versions.mapM mkVersionReq with
    | some ps, some us => .ok ⟨r.id, r.crate_name, r.title, r.descr, r.url, r.date, ps, us⟩
    | _, _ => .error .versionParseError

/-- Lockfile construction from raw (name, version-string) pairs.  Modelled
from the spec (§6): parse failures surface to the caller before a scan is
attempted. -/
def parseLockfile (raw : List (String × String)) : Except AuditError Lockfile :=
  match raw.mapM (fun t => (Version.parse t.2).map (Package.mk t.1)) with
  | some ps => .ok ⟨ps⟩
  | none => .error .lockfileParseError

/-- The whole audit pipeline: all fallible construction steps first, then
the scan.  Modelled from the spec (§7 propagation policy). -/
def buildAndScan (rawAdvisories : List RawAdvisory) (rawLock : List (String × String)) :
    Except AuditError (List VulnerabilityMatch) := do
  let advisories ← rawAdvisories.mapM mkAdvisory
  let db ← from_advisories advisories
  let lf ← parseLockfile rawLock
  return scan lf db

/-- Output format selected on the command line (src/main.rs, `enum
OutputFormat`). -/
inductive OutputFormat where
  | text
  | json
deriving DecidableEq

/-- One object of the machine-readable output, with the fields emitted by the
`json!` block of src/main.rs lines 140-153. -/
structure VulnJson where
  tool : String
  message : String
  url : Option String
  cve : String
  file : String
  priority : String
deriving DecidableEq

/-- JSON object built for one vulnerability match (src/main.rs lines 136-155):
`tool`, `file` and `priority` are literals; `message`, `url` and `cve` come
from the advisory. -/
def vulnToJson (vuln : VulnerabilityMatch) : VulnJson :=
  { tool := "cargo-audit"
    message := vuln.advisory.title
    url := vuln.advisory.url
    cve := vuln.advisory.id
    file := "Cargo.lock"
    priority := "Unknown" }

/-- Outcome of `Lockfile::load` as matched by src/main.rs lines 80-87: an I/O
error is handled specially, every other error is carried with its message. -/
inductive RustSecLoadError where
  | ioError
  | otherError (msg : String)
deriving DecidableEq

/-- Lines printed by `not_found` (src/main.rs lines 166-179). -/
def notFoundLines (filename : String) : List String :=
  ["error: Couldn\x27t find \x27" ++ filename ++ "\x27!",
   "\nRun \"cargo build\" to generate lockfile before running audit"]

/-- Observable outcome of one run of `main` after the lockfile-load step:
a panic, an exit before the advisory database is fetched, or a completed run
with its exit status, report and optional JSON output. -/
inductive MainOutcome where
  | panicked (msg : String)
  | exitedBeforeFetch (status : Nat) (printed : List String)
  | completed (status : Nat) (report : List VulnerabilityMatch)
      (jsonOut : Option (List VulnJson))
deriving DecidableEq

/-- Exit status of an outcome, `none` for a panic. -/
def MainOutcome.status? : MainOutcome → Option Nat
  | .panicked _ => none
  | .exitedBeforeFetch s _ => some s
  | .completed s _ _ => some s

/-- JSON output of an outcome, when any was emitted. -/
def MainOutcome.jsonOut? : MainOutcome → Option (List VulnJson)
  | .completed _ _ j => j
  | _ => none

/-- Embedding of `main` (src/main.rs lines 80-163) from the lockfile-load
step on: an I/O load error prints the `not_found` lines and exits 1 before
the advisory database is fetched; any other load error panics; on success the
scan runs, text output exits 1 exactly when vulnerabilities were found, and
JSON output prints the mapped objects and falls off the end of `main`
(exit status 0). -/
def runMain (filename : String) (loadResult : Except RustSecLoadError Lockfile)
    (db : AdvisoryDatabase) (fmt : OutputFormat) : MainOutcome :=
  match loadResult with
  | .error .ioError => .exitedBeforeFetch 1 (notFoundLines filename)
  | .error (.otherError msg) =>
    .panicked ("Couldn\x27t load " ++ filename ++ ": " ++ msg)
  | .ok lf =>
    let vulnerabilities := scan lf db
    match fmt with
    | .text => .completed (if vulnerabilities.isEmpty then 0 else 1) vulnerabilities none
    | .json => .completed 0 vulnerabilities (some (vulnerabilities.map vulnToJson))

/-! Helper lemmas about the version ordering. -/

lemma preIdListLt_self (l : List PreId) : Version.preIdListLt l l = false := by
  induction l with
  | nil => rfl
  | cons a as ih => simp [Version.preIdListLt, ih]

lemma Version.lt_irrefl (v : Version) : Version.lt v v = false := by
  simp only [Version.lt, ne_eq, not_true_eq_false, if_false, ite_self]
  cases h : v.pre with
  | nil => simp [Version.preLt]
  | cons a as => simp [Version.preLt, preIdListLt_self]

lemma Version.le_refl (v : Version) : Version.le v v = true := by
  simp [Version.le]

lemma Version.lt_numeric_iff (v w : Version) (hv : v.pre = []) (hw : w.pre = []) :
    Version.lt v w = true ↔
      v.major < w.major ∨ (v.major = w.major ∧
        (v.minor < w.minor ∨ (v.minor = w.minor ∧ v.patch < w.patch))) := by
  simp only [Version.lt, hv, hw, Version.preLt]
  split_ifs with h1 h2 h3 <;> simp <;> omega

lemma lt_alpha_release : Version.lt ⟨1, 0, 0, [.str "alpha"]⟩ ⟨1, 0, 0, []⟩ = true := by decide

lemma not_lt_release_alpha : Version.lt ⟨1, 0, 0, []⟩ ⟨1, 0, 0, [.str "alpha"]⟩ = false := by
  decide

lemma lt_alpha_alpha_one :
    Version.lt ⟨1, 0, 0, [.str "alpha"]⟩ ⟨1, 0, 0, [.str "alpha", .num 1]⟩ = true := by decide

lemma lt_minor_numeric : Version.lt ⟨1, 2, 3, []⟩ ⟨1, 10, 0, []⟩ = true := by decide

lemma parse_plain : Version.parse "1.2.3" = some ⟨1, 2, 3, []⟩ := by decide

lemma parse_prerelease : Version.parse "1.0.0-alpha" = some ⟨1, 0, 0, [.str "alpha"]⟩ := by
  decide

lemma parse_prerelease_build :
    Version.parse "1.0.0-alpha.1+build5" = some ⟨1, 0, 0, [.str "alpha", .num 1]⟩ := by decide

lemma parse_missing_component : Version.parse "1.2" = none := by decide

lemma parse_non_numeric : Version.parse "1.2.x" = none := by decide

lemma parse_empty_ident : Version.parse "1.0.0-" = none := by decide

/-! Helper lemmas about the scan. -/

lemma mem_scan_iff (m : VulnerabilityMatch) (lf : Lockfile) (db : AdvisoryDatabase) :
    m ∈ scan lf db ↔
      m.package ∈ lf.packages ∧ m.advisory ∈ db.advisories ∧
        m.advisory.crate_name = m.package.name ∧
        m.advisory.is_version_vulnerable m.package.version = true := by
  rcases m with ⟨p, a⟩
  simp only [scan, packageMatches, AdvisoryDatabase.find_by_crate, List.mem_flatMap,
    List.mem_map, List.mem_filter, decide_eq_true_eq]
  constructor
  · rintro ⟨q, hq, b, ⟨⟨hb, hname⟩, hvuln⟩, heq⟩
    cases heq
    exact ⟨hq, hb, hname, hvuln⟩
  · rintro ⟨hp, ha, hname, hvuln⟩
    exact ⟨p, hp, a, ⟨⟨ha, hname⟩, hvuln⟩, rfl⟩

lemma foldl_append_matches (db : AdvisoryDatabase) (l : List Package)
    (acc : List VulnerabilityMatch) :
    l.foldl (fun acc p => acc ++ packageMatches db p) acc = acc ++ l.flatMap (packageMatches db) := by
  induction l generalizing acc with
  | nil => simp
  | cons p ps ih => simp [ih, List.flatMap_cons, List.append_assoc]

/-! Concrete fixtures used by witnesses and counterexamples, following the
scenario of spec §8: advisory RUSTSEC-0001 for crate `foo` patched at
`>= 1.2.0`, lockfile holding `foo 1.1.0`. -/

def exAdvisory : Advisory :=
  ⟨"RUSTSEC-0001", "foo", "Title", none, some "https://example.com", none,
    [⟨[⟨.ge, ⟨1, 2, 0, []⟩⟩]⟩], []⟩

def exRawAdvisory : RawAdvisory :=
  ⟨"RUSTSEC-0001", "foo", "Title", none, some "https://example.com", none,
    [[(.ge, "1.2.0")]], []⟩

def exAdvisoryB : Advisory :=
  ⟨"RUSTSEC-0002", "foo", "Other title", none, none, none,
    [⟨[⟨.ge, ⟨2, 0, 0, []⟩⟩]⟩], []⟩

def exPackageVuln : Package := ⟨"foo", ⟨1, 1, 0, []⟩⟩

def exDb : AdvisoryDatabase := ⟨[exAdvisory]⟩

def exLockVuln : Lockfile := ⟨[exPackageVuln]⟩

/-- C2: for every advisory and version, `is_version_vulnerable` holds iff the
version matches neither `patched_versions` nor `unaffected_versions`; with no
patched ranges every version outside the unaffected ranges is vulnerable; and
a version inside `patched_versions` never yields a report entry for that
advisory. -/
theorem audit_C2_vulnerable_iff (a : Advisory) (v : Version) :
    (a.is_version_vulnerable v = true ↔
      rangeSetMatches a.patched_versions v = false ∧
        rangeSetMatches a.unaffected_versions v = false)
    ∧ (a.patched_versions = [] →
        (a.is_version_vulnerable v = true ↔ rangeSetMatches a.unaffected_versions v = false))
    ∧ (rangeSetMatches a.patched_versions v = true →
        ∀ (lf : Lockfile) (db : AdvisoryDatabase) (p : Package), p.version = v →
          VulnerabilityMatch.mk p a ∉ scan lf db) := by
  refine ⟨?_, ?_, ?_⟩
  · simp [Advisory.is_version_vulnerable]
  · intro h
    simp [Advisory.is_version_vulnerable, h, rangeSetMatches]
  · intro hm lf db p hv hmem
    rw [mem_scan_iff] at hmem
    have hvuln := hmem.2.2.2
    rw [show (VulnerabilityMatch.mk p a).advisory = a from rfl,
      show (VulnerabilityMatch.mk p a).package = p from rfl, hv] at hvuln
    simp [Advisory.is_version_vulnerable, hm] at hvuln

/-- Witness for C2: version 1.2.0 lies inside the patched range `>= 1.2.0` of
the fixture advisory, so the pair never appears in the scan report. -/
theorem audit_C2_witness :
    VulnerabilityMatch.mk ⟨"foo", ⟨1, 2, 0, []⟩⟩ exAdvisory ∉ scan exLockVuln exDb :=
  (audit_C2_vulnerable_iff exAdvisory ⟨1, 2, 0, []⟩).2.2 (by decide) exLockVuln exDb
    ⟨"foo", ⟨1, 2, 0, []⟩⟩ rfl

/-- C3: the scan report contains exactly the (package, advisory) pairs with
an exact crate-name match and a vulnerable version, ordered by lockfile
package order and, within one package, by advisory insertion order — it
coincides with the filtered ordered cross product `reportSpec`. -/
theorem audit_C3_scan_exact_pairs (lf : Lockfile) (db : AdvisoryDatabase) :
    scan lf db = reportSpec lf db := by
  unfold scan reportSpec packageMatches AdvisoryDatabase.find_by_crate
  rw [List.filter_flatMap]
  apply List.flatMap_congr
  intro p _
  rw [List.filter_map, List.filter_filter]
  apply congrArg
  apply List.filter_congr
  intro a _
  simp [Function.comp, Bool.and_comm]

/-- C4: the scan loop leaves both inputs untouched, its report is the pure
function `scan` of the two inputs, and any two runs from states carrying the
same inputs produce the same report. -/
theorem audit_C4_scan_pure (s : ScanState) :
    (scanRun s).lockfile = s.lockfile ∧ (scanRun s).db = s.db ∧
      (scanRun s).report = scan s.lockfile s.db ∧
      ∀ s2 : ScanState, s2.lockfile = s.lockfile → s2.db = s.db →
        (scanRun s2).report = (scanRun s).report := by
  refine ⟨rfl, rfl, ?_, ?_⟩
  · simp [scanRun, foldl_append_matches, scan]
  · intro s2 h1 h2
    simp [scanRun, h1, h2]

/-- Witness for C4: two states over the same inputs but different initial
report fields yield the same final report. -/
theorem audit_C4_witness :
    (scanRun ⟨exLockVuln, exDb, [⟨exPackageVuln, exAdvisoryB⟩]⟩).report =
      (scanRun ⟨exLockVuln, exDb, []⟩).report :=
  (audit_C4_scan_pure ⟨exLockVuln, exDb, []⟩).2.2.2 ⟨exLockVuln, exDb, [⟨exPackageVuln, exAdvisoryB⟩]⟩
    rfl rfl

/-- C5: once advisories, database and lockfile are successfully constructed,
the remaining pipeline is the total function `scan`: `buildAndScan` returns
its report and never an error. -/
theorem audit_C5_total_after_construction
    (rawAdvisories : List RawAdvisory) (rawLock : List (String × String))
    (advisories : List Advisory) (db : AdvisoryDatabase) (lf : Lockfile)
    (h1 : rawAdvisories.mapM mkAdvisory = .ok advisories)
    (h2 : from_advisories advisories = .ok db)
    (h3 : parseLockfile rawLock = .ok lf) :
    buildAndScan rawAdvisories rawLock = .ok (scan lf db) := by
  simp only [buildAndScan, Bind.bind, Except.bind, h1, h2, h3, pure, Except.pure]

instance instDecEqExcept {ε α : Type} [DecidableEq ε] [DecidableEq α] :
    DecidableEq (Except ε α) := fun x y =>
  match x, y with
  | .ok a, .ok b =>
    if h : a = b then isTrue (congrArg Except.ok h)
    else isFalse (fun hc => h (Except.ok.inj hc))
  | .error a, .error b =>
    if h : a = b then isTrue (congrArg Except.error h)
    else isFalse (fun hc => h (Except.error.inj hc))
  | .ok _, .error _ => isFalse (fun hc => Except.noConfusion hc)
  | .error _, .ok _ => isFalse (fun hc => Except.noConfusion hc)

/-- Witness for C5: the fixture raw advisory and raw lockfile construct
successfully, and the pipeline returns the scan's report. -/
theorem audit_C5_witness :
    buildAndScan [exRawAdvisory] [("foo", "1.1.0")] = .ok (scan exLockVuln exDb) :=
  audit_C5_total_after_construction [exRawAdvisory] [("foo", "1.1.0")] [exAdvisory] exDb
    exLockVuln (by decide) (by decide) (by decide)

/-- C6: for versions v1 < v2 < v3 on the same numeric line (no pre-release
identifiers), the range \"> v1, <= v3\" matches v2, does not match v1, and
matches v3. -/
theorem audit_C6_range_boundaries (v1 v2 v3 : Version)
    (h1 : v1.pre = []) (h2 : v2.pre = []) (h3 : v3.pre = [])
    (h12 : Version.lt v1 v2 = true) (h23 : Version.lt v2 v3 = true) :
    (VersionReq.mk [⟨.gt, v1⟩, ⟨.le, v3⟩]).matches v2 = true
    ∧ (VersionReq.mk [⟨.gt, v1⟩, ⟨.le, v3⟩]).matches v1 = false
    ∧ (VersionReq.mk [⟨.gt, v1⟩, ⟨.le, v3⟩]).matches v3 = true := by
  have t13 : Version.lt v1 v3 = true := by
    rw [Version.lt_numeric_iff _ _ h1 h3]
    rw [Version.lt_numeric_iff _ _ h1 h2] at h12
    rw [Version.lt_numeric_iff _ _ h2 h3] at h23
    omega
  refine ⟨?_, ?_, ?_⟩ <;>
    simp [VersionReq.matches, Comparator.matches, Comparator.preOk, Comparator.primMatches,
      Version.le, h1, h2, h3, h12, h23, t13, Version.lt_irrefl]

/-- Witness for C6 at the concrete line 1.0.0 < 1.1.0 < 2.0.0. -/
theorem audit_C6_witness :
    (VersionReq.mk [⟨.gt, ⟨1, 0, 0, []⟩⟩, ⟨.le, ⟨2, 0, 0, []⟩⟩]).matches ⟨1, 1, 0, []⟩ = true
    ∧ (VersionReq.mk [⟨.gt, ⟨1, 0, 0, []⟩⟩, ⟨.le, ⟨2, 0, 0, []⟩⟩]).matches ⟨1, 0, 0, []⟩ = false
    ∧ (VersionReq.mk [⟨.gt, ⟨1, 0, 0, []⟩⟩, ⟨.le, ⟨2, 0, 0, []⟩⟩]).matches ⟨2, 0, 0, []⟩ = true :=
  audit_C6_range_boundaries ⟨1, 0, 0, []⟩ ⟨1, 1, 0, []⟩ ⟨2, 0, 0, []⟩ rfl rfl rfl
    (by decide) (by decide)

/-- C7: a pre-release version never matches the plain `>=` bound at its own
numeric triple, does match the `>=` bound at the pre-release itself, and
orders strictly before its corresponding normal release. -/
theorem audit_C7_prerelease (v : Version) (h : v.pre ≠ []) :
    (VersionReq.mk [⟨.ge, ⟨v.major, v.minor, v.patch, []⟩⟩]).matches v = false
    ∧ (VersionReq.mk [⟨.ge, v⟩]).matches v = true
    ∧ Version.lt v ⟨v.major, v.minor, v.patch, []⟩ = true := by
  have hne : v.pre.isEmpty = false := by
    cases hp : v.pre with
    | nil => exact absurd hp h
    | cons a as => rfl
  refine ⟨?_, ?_, ?_⟩
  · simp [VersionReq.matches, Comparator.matches, Comparator.preOk, hne]
  · simp [VersionReq.matches, Comparator.matches, Comparator.preOk, Comparator.primMatches,
      Version.le, hne]
  · cases hp : v.pre with
    | nil => exact absurd hp h
    | cons a as => simp [Version.lt, Version.preLt, hp]

/-- Witness for C7 at the concrete pre-release 1.0.0-alpha. -/
theorem audit_C7_witness :
    (VersionReq.mk [⟨.ge, ⟨1, 0, 0, []⟩⟩]).matches ⟨1, 0, 0, [.str "alpha"]⟩ = false
    ∧ (VersionReq.mk [⟨.ge, ⟨1, 0, 0, [.str "alpha"]⟩⟩]).matches ⟨1, 0, 0, [.str "alpha"]⟩ = true
    ∧ Version.lt ⟨1, 0, 0, [.str "alpha"]⟩ ⟨1, 0, 0, []⟩ = true :=
  audit_C7_prerelease ⟨1, 0, 0, [.str "alpha"]⟩ (by decide)

/-- C8: permuting the advisory list fed into `from_advisories` (with
pairwise-distinct ids) keeps both constructions successful and leaves the
matches of any scan the same up to order: the reports are permutations of
each other and contain the same set of matches. -/
theorem audit_C8_permutation_invariance (l1 l2 : List Advisory) (lf : Lockfile)
    (hp : l1.Perm l2) (hd : (l1.map (fun a => a.id)).Nodup) :
    ∃ db1 db2, from_advisories l1 = .ok db1 ∧ from_advisories l2 = .ok db2 ∧
      (scan lf db1).Perm (scan lf db2) ∧ ∀ m, m ∈ scan lf db1 ↔ m ∈ scan lf db2 := by
  have hd2 : (l2.map (fun a => a.id)).Nodup := ((hp.map _).nodup_iff).mp hd
  have hscan : (scan lf (⟨l1⟩ : AdvisoryDatabase)).Perm (scan lf ⟨l2⟩) := by
    unfold scan
    apply List.Perm.flatMap_left
    intro p _
    unfold packageMatches AdvisoryDatabase.find_by_crate
    exact ((hp.filter _).filter _).map _
  refine ⟨⟨l1⟩, ⟨l2⟩, ?_, ?_, hscan, fun m => hscan.mem_iff⟩
  · simp [from_advisories, hd]
  · simp [from_advisories, hd2]

/-- Witness for C8: swapping the two fixture advisories (distinct ids)
preserves database construction and the set of matches. -/
theorem audit_C8_witness :
    ∃ db1 db2, from_advisories [exAdvisory, exAdvisoryB] = .ok db1 ∧
      from_advisories [exAdvisoryB, exAdvisory] = .ok db2 ∧
      (scan exLockVuln db1).Perm (scan exLockVuln db2) ∧
      ∀ m, m ∈ scan exLockVuln db1 ↔ m ∈ scan exLockVuln db2 :=
  audit_C8_permutation_invariance [exAdvisory, exAdvisoryB] [exAdvisoryB, exAdvisory]
    exLockVuln (by decide) (by decide)

/-- C1 counterexample: with JSON output selected, a run whose report is
non-empty still falls off the end of `main` with exit status 0 — the claim
that a non-empty report always produces a non-zero status regardless of the
output format is false on the code. -/
theorem audit_C1_counterexample :
    scan exLockVuln exDb ≠ [] ∧
      (runMain "Cargo.lock" (.ok exLockVuln) exDb .json).status? = some 0 := by
  decide

/-- C1 (amended): with text output, the process exits with success status
exactly when the report is empty and with status 1 otherwise; with JSON
output the process always exits with success status, whatever the report. -/
theorem audit_C1_amended_exit_status (filename : String) (lf : Lockfile)
    (db : AdvisoryDatabase) :
    ((runMain filename (.ok lf) db .text).status? = some 0 ↔ scan lf db = [])
    ∧ (scan lf db ≠ [] → (runMain filename (.ok lf) db .text).status? = some 1)
    ∧ (runMain filename (.ok lf) db .json).status? = some 0 := by
  refine ⟨?_, ?_, rfl⟩ <;> cases h : scan lf db <;>
    simp [runMain, MainOutcome.status?, h]

/-- Witness for C1 (amended): the fixture report is non-empty, so the text
run exits with status 1. -/
theorem audit_C1_witness :
    (runMain "Cargo.lock" (.ok exLockVuln) exDb .text).status? = some 1 :=
  (audit_C1_amended_exit_status "Cargo.lock" exLockVuln exDb).2.1 (by decide)

/-- C9: every emitted JSON object carries the literals `tool = "cargo-audit"`,
`file = "Cargo.lock"` and `priority = "Unknown"`, the output is independent
of the `--file` argument, and two matches map to the same object exactly when
their advisories agree on title, url and id. -/
theorem audit_C9_json_fields (f1 f2 : String) (lf : Lockfile) (db : AdvisoryDatabase) :
    (runMain f1 (.ok lf) db .json).jsonOut? = (runMain f2 (.ok lf) db .json).jsonOut?
    ∧ (∀ l, (runMain f1 (.ok lf) db .json).jsonOut? = some l →
        ∀ o ∈ l, o.tool = "cargo-audit" ∧ o.file = "Cargo.lock" ∧ o.priority = "Unknown")
    ∧ (∀ v1 v2 : VulnerabilityMatch,
        vulnToJson v1 = vulnToJson v2 ↔
          v1.advisory.title = v2.advisory.title ∧ v1.advisory.url = v2.advisory.url ∧
            v1.advisory.id = v2.advisory.id) := by
  refine ⟨rfl, ?_, ?_⟩
  · intro l hl o ho
    simp only [runMain, MainOutcome.jsonOut?, Option.some.injEq] at hl
    rw [← hl] at ho
    rcases List.mem_map.1 ho with ⟨m, _, rfl⟩
    exact ⟨rfl, rfl, rfl⟩
  · intro v1 v2
    simp [vulnToJson, VulnJson.mk.injEq, and_comm, and_assoc]

/-- Witness for C9: the object emitted for the fixture match carries the
three literal fields. -/
theorem audit_C9_witness :
    (vulnToJson ⟨exPackageVuln, exAdvisory⟩).tool = "cargo-audit"
    ∧ (vulnToJson ⟨exPackageVuln, exAdvisory⟩).file = "Cargo.lock"
    ∧ (vulnToJson ⟨exPackageVuln, exAdvisory⟩).priority = "Unknown" :=
  (audit_C9_json_fields "Cargo.lock" "other.lock" exLockVuln exDb).2.1
    [vulnToJson ⟨exPackageVuln, exAdvisory⟩] (by decide)
    (vulnToJson ⟨exPackageVuln, exAdvisory⟩) (by decide)

/-- C10: an I/O failure of the lockfile load prints the two `not_found`
lines (the "Couldn\x27t find" message and the "cargo build" hint) and exits
with status 1 before the advisory database is fetched — the outcome does not
depend on the database — while any other load error panics. -/
theorem audit_C10_load_failure (filename msg : String) (db1 db2 : AdvisoryDatabase)
    (fmt : OutputFormat) :
    runMain filename (.error .ioError) db1 fmt = .exitedBeforeFetch 1 (notFoundLines filename)
    ∧ runMain filename (.error .ioError) db1 fmt = runMain filename (.error .ioError) db2 fmt
    ∧ notFoundLines filename =
        ["error: Couldn\x27t find \x27" ++ filename ++ "\x27!",
         "\nRun \"cargo build\" to generate lockfile before running audit"]
    ∧ runMain filename (.error (.otherError msg)) db1 fmt =
        .panicked ("Couldn\x27t load " ++ filename ++ ": " ++ msg) :=
  ⟨rfl, rfl, rfl, rfl⟩

end CargoAudit
